import Mathlib

/-!
Formal model of the analytics core of the Strategy Telemetry & Performance
Analytics repository.

The embedding follows the TypeScript source:
  * `lib/metrics/calculator.ts` (quoted inside `lib/whatif/simulator.ts`) —
    the `MetricsCalculator` class;
  * `lib/whatif/simulator.ts` — the `WhatIfSimulator` class;
  * `lib/anomaly/detector.ts` (quoted verbatim in `docs/DEVELOPMENT.md`) —
    the `AnomalyDetector` class.

Modelling conventions:
  * JavaScript numbers are modelled as exact rationals (`ℚ`); `Date` values
    are modelled by their millisecond timestamp as a rational.
  * `Math.sqrt` is not rational, so the model is parametric in an arbitrary
    square-root approximation `sqrtA : ℚ → ℚ` wherever the source stores a
    standard deviation in a result field.  Comparisons of a z-score with a
    nonnegative constant do not need `sqrtA`: they are encoded exactly by
    comparing the signed square of the z-score with the squared constant
    (`zSig` below), which is equivalent over the reals.
  * Sources of nondeterminism (`Date.now()`, `Math.random()`, `new Date()`)
    are modelled by an explicit environment `Env` supplied per call.
  * `Array.prototype.sort` is stable in JavaScript; it is modelled by
    `List.insertionSort`, which is also stable.
  * JavaScript string rendering of numbers is abstracted by the executable
    formatters `fmtQ`/`fmtFixed`; no verified property depends on the exact
    digits produced.
-/

namespace Telemetry

/-- Trade side of a fill; the source uses the string union "buy" | "sell". -/
inductive Side where
  | buy
  | sell
  deriving DecidableEq, Repr

/-- Record type `Fill` from `lib/types.ts`; timestamps are ms since epoch. -/
structure Fill where
  id : String
  timestamp : ℚ
  strategy_id : String
  symbol : String
  side : Side
  quantity : ℚ
  price : ℚ
  venue : String
  latency_ms : ℚ
  order_id : String
  deriving DecidableEq, Repr

/-- Record type `Cancel` from `lib/types.ts`. -/
structure Cancel where
  id : String
  timestamp : ℚ
  strategy_id : String
  symbol : String
  order_id : String
  reason : String
  latency_ms : ℚ
  deriving DecidableEq, Repr

/-- Record type `Reject` from `lib/types.ts`. -/
structure Reject where
  id : String
  timestamp : ℚ
  strategy_id : String
  symbol : String
  order_id : String
  reason : String
  error_code : String
  deriving DecidableEq, Repr

/-- Record type `LatencyMetric` from `lib/types.ts`; `metric_type` is kept as
a plain string since the core never inspects it. -/
structure LatencyMetric where
  id : String
  timestamp : ℚ
  strategy_id : String
  metric_type : String
  latency_ms : ℚ
  percentile_50 : Option ℚ := none
  percentile_95 : Option ℚ := none
  percentile_99 : Option ℚ := none
  deriving DecidableEq, Repr

/-- The `TimeSeriesPoint` interface of `lib/metrics/calculator.ts`. -/
structure TimeSeriesPoint where
  timestamp : ℚ
  value : ℚ
  deriving DecidableEq, Repr

/-- The `PerformanceMetrics` interface of `lib/metrics/calculator.ts`. -/
structure PerformanceMetrics where
  fillRate : ℚ
  cancelRate : ℚ
  rejectRate : ℚ
  avgLatency : ℚ
  p50Latency : ℚ
  p95Latency : ℚ
  p99Latency : ℚ
  totalVolume : ℚ
  totalPnl : ℚ
  sharpeRatio : ℚ
  maxDrawdown : ℚ
  deriving DecidableEq, Repr

/-- Record type `StrategyMetrics` from `lib/types.ts`. -/
structure StrategyMetrics where
  strategy_id : String
  date : String
  total_fills : ℕ
  total_cancels : ℕ
  total_rejects : ℕ
  fill_rate : ℚ
  cancel_rate : ℚ
  reject_rate : ℚ
  avg_latency_ms : ℚ
  p95_latency_ms : ℚ
  p99_latency_ms : ℚ
  total_volume : ℚ
  total_pnl : ℚ
  deriving DecidableEq, Repr

/-- The `SimulationParameters` interface of `lib/whatif/simulator.ts`; every
field is optional and `none` means the constraint is absent. -/
structure SimulationParameters where
  max_position_size : Option ℚ := none
  order_timeout_ms : Option ℚ := none
  min_fill_rate : Option ℚ := none
  max_latency_ms : Option ℚ := none
  risk_multiplier : Option ℚ := none
  deriving DecidableEq, Repr

/-- Record type `WhatIfScenario` from `lib/types.ts`. -/
structure WhatIfScenario where
  id : String
  name : String
  strategy_id : String
  parameters : SimulationParameters
  projected_metrics : StrategyMetrics
  created_at : ℚ
  deriving DecidableEq, Repr

/-- Anomaly type tags from `lib/types.ts`. -/
inductive AnomalyType where
  | latency_spike
  | high_reject_rate
  | unusual_volume
  | fill_rate_drop
  deriving DecidableEq, Repr

/-- Severity levels from `lib/types.ts`. -/
inductive Severity where
  | low
  | medium
  | high
  | critical
  deriving DecidableEq, Repr

/-- Record type `Anomaly` from `lib/types.ts`. -/
structure Anomaly where
  id : String
  timestamp : ℚ
  strategy_id : String
  anomaly_type : AnomalyType
  severity : Severity
  description : String
  metric_value : ℚ
  threshold_value : ℚ
  detected_at : ℚ
  deriving DecidableEq, Repr

/-- The `AnomalyThresholds` configuration of `lib/anomaly/detector.ts`. -/
structure AnomalyThresholds where
  latencySpike : ℚ
  highRejectRate : ℚ
  fillRateDrop : ℚ
  volumeMultiplier : ℚ
  deriving DecidableEq, Repr

/-- The `DEFAULT_THRESHOLDS` constant of `lib/anomaly/detector.ts`. -/
def DEFAULT_THRESHOLDS : AnomalyThresholds :=
  { latencySpike := 150
    highRejectRate := 3 / 20
    fillRateDrop := 3 / 5
    volumeMultiplier := 3 }

/-- Per-call environment capturing the sources of nondeterminism used by the
source: `Date.now()` (as a rational and as the string interpolated into ids),
one sampled `Math.random().toString(36).substr(2, 9)` tag, the current date
string `new Date().toISOString().split("T")[0]`, and a stream of
`Math.random()` draws used by the min-fill-rate stage.  Successive draws
inside one call are abstracted as one environment sample; no verified claim
depends on distinct draws within a call. -/
structure Env where
  nowMs : ℚ
  nowStr : String
  randStr : String
  today : String
  rand : ℕ → ℚ

/-- JavaScript `x || 1` on a number: substitutes 1 exactly when x is 0. -/
def jsOr1 (x : ℚ) : ℚ := if x = 0 then 1 else x

/-- JavaScript `Math.abs(x || 1)` as used by the Sharpe-ratio and
max-drawdown guards in `lib/metrics/calculator.ts`. -/
def jsAbsOr1 (x : ℚ) : ℚ := |jsOr1 x|

/-- Window key of a timestamp: `Math.floor(t / (w * 60 * 1000))`. -/
def wkey (w : ℕ) (t : ℚ) : ℤ := ⌊t / ((w : ℚ) * 60000)⌋

/-- Window start timestamp rebuilt from a key: `new Date(key * w * 60000)`. -/
def wstart (w : ℕ) (k : ℤ) : ℚ := (k : ℚ) * ((w : ℚ) * 60000)

/-- Keys of a JavaScript `Map` in insertion order: first occurrence of each
key, duplicates dropped. -/
def dedupFirstAux [DecidableEq α] (acc : List α) : List α → List α
  | [] => acc
  | a :: l => dedupFirstAux (if a ∈ acc then acc else acc ++ [a]) l

/-- First-occurrence deduplication, modelling JS `Map`/`Set` key order. -/
def dedupFirst [DecidableEq α] (l : List α) : List α := dedupFirstAux [] l

/-- The distinct window keys of a list of timestamps, in ascending order.
The source inserts keys into a `Map` in input order and sorts the resulting
entries by timestamp at the end; since keys are distinct, the sorted result
is independent of insertion order, and the model computes it directly. -/
def sortedWindowKeys (w : ℕ) (ts : List ℚ) : List ℤ :=
  List.insertionSort (· ≤ ·) (dedupFirst (ts.map (wkey w)))

/-- Arithmetic mean of a list of rationals (`reduce(sum)/length`); division
by zero only arises for the empty list, where the source never calls it. -/
def meanQ (l : List ℚ) : ℚ := l.sum / (l.length : ℚ)

/-- Population variance as computed by the source
(`reduce((v-mean)^2)/length`). -/
def varQ (l : List ℚ) : ℚ := ((l.map (fun v => (v - meanQ l) ^ 2)).sum) / (l.length : ℚ)

/-- Signed square of the z-score `num / (Math.sqrt varr || 1)`.  For any
nonnegative constant `t`, the comparison `z < t` (resp. `z > t`) is exactly
equivalent to `zSig num varr < t^2` (resp. `> t^2`) over the reals, because
`x ↦ x * |x|` is strictly monotone and `(Math.sqrt varr || 1)^2 = jsOr1 varr`
for `varr ≥ 0`.  This lets the model decide all z-score comparisons without
a square root. -/
def zSig (num varr : ℚ) : ℚ := num * |num| / jsOr1 varr

/-- Signed square of the z-score as the specification words it,
`num / max (Math.sqrt varr) 1`: here `(max (Math.sqrt varr) 1)^2 = max varr 1`
for `varr ≥ 0`.  Used only to compare the spec reading against the code. -/
def zSigSpec (num varr : ℚ) : ℚ := num * |num| / max varr 1

/-- Abstract decimal rendering of a rational (JS template interpolation of a
number); exact rational rendering, since no claim depends on the digits. -/
def fmtQ (q : ℚ) : String :=
  if q.den = 1 then toString q.num else toString q.num ++ "/" ++ toString q.den

/-- Abstract model of JavaScript `toFixed(d)`: round to `d` decimal places
and render with a decimal point. -/
def fmtFixed (d : ℕ) (q : ℚ) : String :=
  let n : ℤ := round (q * (10 : ℚ) ^ d)
  let na : ℕ := n.natAbs
  let sign : String := if n < 0 then "-" else ""
  if d = 0 then sign ++ toString na
  else
    let ip : ℕ := na / 10 ^ d
    let fp : ℕ := na % 10 ^ d
    let fs : String := toString fp
    let fs : String := String.mk (List.replicate (d - fs.length) '0') ++ fs
    sign ++ toString ip ++ "." ++ fs

/-! ## MetricsCalculator (`lib/metrics/calculator.ts`) -/

namespace MetricsCalculator

/-- Result record of `calculateLatencyPercentiles`. -/
structure LatencyStats where
  p50 : ℚ
  p95 : ℚ
  p99 : ℚ
  avg : ℚ
  deriving DecidableEq, Repr

/-- Embedding of `MetricsCalculator.calculateFillRateTimeSeries`.  The source
tags each fill/cancel/reject with its timestamp, groups the tagged events
into a `Map` keyed by window, emits one point per key with value
`fills/total` (guarded by `total > 0`), and sorts the points by timestamp.
The source's preliminary sort of `allEvents` and the `Map` insertion order
only affect intermediate order, which the final sort over distinct window
timestamps erases; the model therefore aggregates over the sorted distinct
keys directly. -/
def calculateFillRateTimeSeries (fills : List Fill) (cancels : List Cancel)
    (rejects : List Reject) (intervalMinutes : ℕ) : List TimeSeriesPoint :=
  let evts : List (ℚ × Bool) :=
    fills.map (fun f => (f.timestamp, true)) ++
    cancels.map (fun c => (c.timestamp, false)) ++
    rejects.map (fun r => (r.timestamp, false))
  (sortedWindowKeys intervalMinutes (evts.map (·.1))).map (fun k =>
    let win := evts.filter (fun e => decide (wkey intervalMinutes e.1 = k))
    let total := win.length
    let nf := (win.filter (·.2)).length
    { timestamp := wstart intervalMinutes k
      value := if 0 < total then (nf : ℚ) / (total : ℚ) else 0 })

/-- Embedding of `MetricsCalculator.calculateLatencyPercentiles`: sort the
latency values ascending, return the value at index
`min (Math.floor(n * p)) (n - 1)` for each percentile, plus the mean. -/
def calculateLatencyPercentiles (metrics : List LatencyMetric) : LatencyStats :=
  if metrics.length = 0 then { p50 := 0, p95 := 0, p99 := 0, avg := 0 }
  else
    let latencies := List.insertionSort (· ≤ ·) (metrics.map (·.latency_ms))
    let avg := latencies.sum / (latencies.length : ℚ)
    let getPercentile := fun (p : ℚ) =>
      latencies.getD (min (⌊(latencies.length : ℚ) * p⌋).toNat (latencies.length - 1)) 0
    { p50 := getPercentile (1 / 2)
      p95 := getPercentile (19 / 20)
      p99 := getPercentile (99 / 100)
      avg := avg }

/-- Embedding of `MetricsCalculator.calculateLatencyTimeSeries`: one point
per non-empty window carrying the window's average latency. -/
def calculateLatencyTimeSeries (metrics : List LatencyMetric)
    (intervalMinutes : ℕ) : List TimeSeriesPoint :=
  (sortedWindowKeys intervalMinutes (metrics.map (·.timestamp))).map (fun k =>
    let ls := (metrics.filter (fun m => decide (wkey intervalMinutes m.timestamp = k))).map
      (·.latency_ms)
    { timestamp := wstart intervalMinutes k, value := ls.sum / (ls.length : ℚ) })

/-- Embedding of `MetricsCalculator.calculateVolumeTimeSeries`: one point per
non-empty window carrying the sum of fill quantities in that window. -/
def calculateVolumeTimeSeries (fills : List Fill) (intervalMinutes : ℕ) :
    List TimeSeriesPoint :=
  (sortedWindowKeys intervalMinutes (fills.map (·.timestamp))).map (fun k =>
    { timestamp := wstart intervalMinutes k
      value := ((fills.filter (fun f => decide (wkey intervalMinutes f.timestamp = k))).map
        (·.quantity)).sum })

/-- Per-fill P&L contribution: `(side === "buy" ? -1 : 1) * quantity * price`. -/
def pnlOf (f : Fill) : ℚ := (if f.side = Side.buy then -1 else 1) * f.quantity * f.price

/-- Cumulative scan used by `calculatePnLTimeSeries`: window P&L contributions
in ascending key order are summed into a running total. -/
def pnlCumul (w : ℕ) (acc : ℚ) : List (ℤ × ℚ) → List TimeSeriesPoint
  | [] => []
  | (k, v) :: rest => { timestamp := wstart w k, value := acc + v } :: pnlCumul w (acc + v) rest

/-- Embedding of `MetricsCalculator.calculatePnLTimeSeries`: group per-fill
P&L into windows, sort the windows by key, emit the cumulative sums. -/
def calculatePnLTimeSeries (fills : List Fill) (intervalMinutes : ℕ) :
    List TimeSeriesPoint :=
  pnlCumul intervalMinutes 0
    ((sortedWindowKeys intervalMinutes (fills.map (·.timestamp))).map (fun k =>
      (k, ((fills.filter (fun f => decide (wkey intervalMinutes f.timestamp = k))).map
        pnlOf).sum)))

/-- Embedding of `MetricsCalculator.calculateSharpeRatio`, parametric in the
square-root approximation `sqrtA` modelling `Math.sqrt`.  Per-window returns
divide by `Math.abs(previous || 1)`; the result is 0 when fewer than two
points or zero standard deviation. -/
def calculateSharpeRatio (sqrtA : ℚ → ℚ) (pnlSeries : List TimeSeriesPoint)
    (riskFreeRate : ℚ) : ℚ :=
  if pnlSeries.length < 2 then 0
  else
    let returns := (pnlSeries.zip (pnlSeries.drop 1)).map
      (fun pq => (pq.2.value - pq.1.value) / jsAbsOr1 pq.1.value)
    if returns.length = 0 then 0
    else
      let avgReturn := returns.sum / (returns.length : ℚ)
      let variance := ((returns.map (fun r => (r - avgReturn) ^ 2)).sum) / (returns.length : ℚ)
      let stdDev := sqrtA variance
      if stdDev = 0 then 0 else (avgReturn - riskFreeRate / 252) / stdDev

/-- Loop of `calculateMaxDrawdown`: track the running peak and the maximum
of `(peak - value) / Math.abs(peak || 1)`. -/
def mddGo (peak mdd : ℚ) : List TimeSeriesPoint → ℚ
  | [] => mdd
  | p :: rest =>
    let peak1 := if p.value > peak then p.value else peak
    let drawdown := (peak1 - p.value) / jsAbsOr1 peak1
    mddGo peak1 (max mdd drawdown) rest

/-- Embedding of `MetricsCalculator.calculateMaxDrawdown`. -/
def calculateMaxDrawdown : List TimeSeriesPoint → ℚ
  | [] => 0
  | p :: rest => mddGo p.value 0 (p :: rest)

/-- Embedding of `MetricsCalculator.calculatePerformanceMetrics`. -/
def calculatePerformanceMetrics (sqrtA : ℚ → ℚ) (fills : List Fill)
    (cancels : List Cancel) (rejects : List Reject)
    (latencyMetrics : List LatencyMetric) : PerformanceMetrics :=
  let totalOrders := fills.length + cancels.length + rejects.length
  let fillRate : ℚ := if 0 < totalOrders then (fills.length : ℚ) / (totalOrders : ℚ) else 0
  let cancelRate : ℚ := if 0 < totalOrders then (cancels.length : ℚ) / (totalOrders : ℚ) else 0
  let rejectRate : ℚ := if 0 < totalOrders then (rejects.length : ℚ) / (totalOrders : ℚ) else 0
  let latencyStats := calculateLatencyPercentiles latencyMetrics
  let totalVolume := (fills.map (·.quantity)).sum
  let pnlSeries := calculatePnLTimeSeries fills 60
  let totalPnl := ((pnlSeries.getLast?).map (·.value)).getD 0
  let sharpeRatio := calculateSharpeRatio sqrtA pnlSeries (1 / 50)
  let maxDrawdown := calculateMaxDrawdown pnlSeries
  { fillRate := fillRate
    cancelRate := cancelRate
    rejectRate := rejectRate
    avgLatency := latencyStats.avg
    p50Latency := latencyStats.p50
    p95Latency := latencyStats.p95
    p99Latency := latencyStats.p99
    totalVolume := totalVolume
    totalPnl := totalPnl
    sharpeRatio := sharpeRatio
    maxDrawdown := maxDrawdown }

/-- Embedding of `MetricsCalculator.calculateStrategyMetrics`.  The source
stamps the result with the current date (`new Date().toISOString()` split at
"T"), passed here explicitly as `today`. -/
def calculateStrategyMetrics (today : String) (sqrtA : ℚ → ℚ) (strategyId : String)
    (fills : List Fill) (cancels : List Cancel) (rejects : List Reject)
    (latencyMetrics : List LatencyMetric) : StrategyMetrics :=
  let strategyFills := fills.filter (fun f => decide (f.strategy_id = strategyId))
  let strategyCancels := cancels.filter (fun c => decide (c.strategy_id = strategyId))
  let strategyRejects := rejects.filter (fun r => decide (r.strategy_id = strategyId))
  let strategyLatency := latencyMetrics.filter (fun m => decide (m.strategy_id = strategyId))
  let perf := calculatePerformanceMetrics sqrtA strategyFills strategyCancels strategyRejects
    strategyLatency
  { strategy_id := strategyId
    date := today
    total_fills := strategyFills.length
    total_cancels := strategyCancels.length
    total_rejects := strategyRejects.length
    fill_rate := perf.fillRate
    cancel_rate := perf.cancelRate
    reject_rate := perf.rejectRate
    avg_latency_ms := perf.avgLatency
    p95_latency_ms := perf.p95Latency
    p99_latency_ms := perf.p99Latency
    total_volume := perf.totalVolume
    total_pnl := perf.totalPnl }

end MetricsCalculator

/-! ## WhatIfSimulator (`lib/whatif/simulator.ts`) -/

namespace WhatIfSimulator

/-- JavaScript truthiness of an optional numeric parameter: `undefined` and
`0` are falsy, every other number is truthy (`NaN` cannot arise for a stored
parameter value in the model). -/
def truthy : Option ℚ → Bool
  | none => false
  | some v => decide (v ≠ 0)

/-- Loop of `applyPositionSizeLimit`: the source filters with a closure that
mutates `currentPosition` only when a fill is kept; the position change is
`+quantity` for a buy and `-quantity` for a sell, and a fill is kept exactly
when `Math.abs(newPosition) <= maxSize`. -/
def posGo (maxSize currentPosition : ℚ) : List Fill → List Fill
  | [] => []
  | fill :: rest =>
    let positionChange := if fill.side = Side.buy then fill.quantity else -fill.quantity
    let newPosition := currentPosition + positionChange
    if |newPosition| ≤ maxSize then fill :: posGo maxSize newPosition rest
    else posGo maxSize currentPosition rest

/-- Embedding of `WhatIfSimulator.applyPositionSizeLimit`.  Note that the
source replays the fills in the order of the input array; it does not sort
them by timestamp. -/
def applyPositionSizeLimit (fills : List Fill) (maxSize : ℚ) : List Fill :=
  posGo maxSize 0 fills

/-- Embedding of `WhatIfSimulator.applyOrderTimeout`: fills with
`latency_ms > timeoutMs` are removed and re-emitted as synthetic cancels
with reason "Timeout" and `latency_ms = timeoutMs`.  The `latency` argument
of the source is unused and omitted. -/
def applyOrderTimeout (fills : List Fill) (cancels : List Cancel)
    (timeoutMs : ℚ) : List Fill × List Cancel :=
  let validFills := fills.filter (fun fill => decide (fill.latency_ms ≤ timeoutMs))
  let timedOutFills := fills.filter (fun fill => decide (fill.latency_ms > timeoutMs))
  let newCancels := timedOutFills.map (fun fill =>
    { id := "cancel-timeout-" ++ fill.id
      timestamp := fill.timestamp
      strategy_id := fill.strategy_id
      symbol := fill.symbol
      order_id := fill.order_id
      reason := "Timeout"
      latency_ms := timeoutMs } : Fill → Cancel)
  (validFills, cancels ++ newCancels)

/-- Embedding of `WhatIfSimulator.applyMinFillRate`.  The source computes
`fills.length / totalOrders` without a zero guard; with all-empty inputs
that division is `0/0 = NaN` in JavaScript and the `NaN >= minFillRate`
comparison is false, after which zero cancels are converted and the empty
lists are returned — the same output this total model produces, since
`0/0 = 0` in `ℚ` also fails `0 >= minFillRate` for positive targets and
converts `ceil(0 * r) - 0 = 0` cancels (and for non-positive targets the
taken branch differs but both branches return the unchanged empty lists).
The synthetic fills use randomized side/quantity/price drawn from the
environment's `Math.random()` stream. -/
def applyMinFillRate (env : Env) (fills : List Fill) (cancels : List Cancel)
    (rejects : List Reject) (minFillRate : ℚ) :
    List Fill × List Cancel × List Reject :=
  let totalOrders := fills.length + cancels.length + rejects.length
  let currentFillRate : ℚ := (fills.length : ℚ) / (totalOrders : ℚ)
  if currentFillRate ≥ minFillRate then (fills, cancels, rejects)
  else
    let targetFills : ℤ := ⌈(totalOrders : ℚ) * minFillRate⌉
    let ordersToConvert : ℕ := (targetFills - (fills.length : ℤ)).toNat
    let convertedFills := (cancels.take ordersToConvert).mapIdx (fun j cancel =>
      { id := "fill-converted-" ++ cancel.id
        timestamp := cancel.timestamp
        strategy_id := cancel.strategy_id
        symbol := cancel.symbol
        side := if env.rand (3 * j) > 1 / 2 then Side.buy else Side.sell
        quantity := ((⌊env.rand (3 * j + 1) * 500⌋ + 100 : ℤ) : ℚ)
        price := env.rand (3 * j + 2) * 200 + 50
        venue := "SIMULATED"
        latency_ms := cancel.latency_ms
        order_id := cancel.order_id })
    (fills ++ convertedFills, cancels.drop ordersToConvert, rejects)

/-- Embedding of `WhatIfSimulator.applyMaxLatency`: like the timeout stage
but the synthetic cancels keep the fill's own latency and carry reason
"High latency". -/
def applyMaxLatency (fills : List Fill) (cancels : List Cancel)
    (maxLatencyMs : ℚ) : List Fill × List Cancel :=
  let validFills := fills.filter (fun fill => decide (fill.latency_ms ≤ maxLatencyMs))
  let highLatencyFills := fills.filter (fun fill => decide (fill.latency_ms > maxLatencyMs))
  let newCancels := highLatencyFills.map (fun fill =>
    { id := "cancel-latency-" ++ fill.id
      timestamp := fill.timestamp
      strategy_id := fill.strategy_id
      symbol := fill.symbol
      order_id := fill.order_id
      reason := "High latency"
      latency_ms := fill.latency_ms } : Fill → Cancel)
  (validFills, cancels ++ newCancels)

/-- Embedding of `WhatIfSimulator.generateScenarioName`: parts for the
truthy parameters joined by " | ", else "Default Scenario". -/
def generateScenarioName (parameters : SimulationParameters) : String :=
  let parts : List String :=
    (if truthy parameters.max_position_size then
      ["MaxPos:" ++ fmtQ (parameters.max_position_size.getD 0)] else []) ++
    (if truthy parameters.order_timeout_ms then
      ["Timeout:" ++ fmtQ (parameters.order_timeout_ms.getD 0) ++ "ms"] else []) ++
    (if truthy parameters.min_fill_rate then
      ["MinFill:" ++ fmtFixed 0 (parameters.min_fill_rate.getD 0 * 100) ++ "%"] else []) ++
    (if truthy parameters.max_latency_ms then
      ["MaxLat:" ++ fmtQ (parameters.max_latency_ms.getD 0) ++ "ms"] else []) ++
    (if truthy parameters.risk_multiplier then
      ["Risk:" ++ fmtQ (parameters.risk_multiplier.getD 0) ++ "x"] else [])
  if 0 < parts.length then String.intercalate " | " parts else "Default Scenario"

/-- Embedding of `WhatIfSimulator.simulateScenario`: filter the events to
the strategy, apply the five optional constraint stages in the source's
fixed order (each guarded by JavaScript truthiness of its parameter),
compute the projected metrics, and post-scale P&L and volume by the risk
multiplier. -/
def simulateScenario (env : Env) (sqrtA : ℚ → ℚ) (strategyId : String)
    (fills : List Fill) (cancels : List Cancel) (rejects : List Reject)
    (latencyMetrics : List LatencyMetric)
    (parameters : SimulationParameters) : WhatIfScenario :=
  let strategyFills := fills.filter (fun f => decide (f.strategy_id = strategyId))
  let strategyCancels := cancels.filter (fun c => decide (c.strategy_id = strategyId))
  let strategyRejects := rejects.filter (fun r => decide (r.strategy_id = strategyId))
  let strategyLatency := latencyMetrics.filter (fun m => decide (m.strategy_id = strategyId))
  let fills1 := if truthy parameters.max_position_size then
    applyPositionSizeLimit strategyFills (parameters.max_position_size.getD 0)
    else strategyFills
  let fc2 := if truthy parameters.order_timeout_ms then
    applyOrderTimeout fills1 strategyCancels (parameters.order_timeout_ms.getD 0)
    else (fills1, strategyCancels)
  let fcr3 := if truthy parameters.min_fill_rate then
    applyMinFillRate env fc2.1 fc2.2 strategyRejects (parameters.min_fill_rate.getD 0)
    else (fc2.1, fc2.2, strategyRejects)
  let fc4 := if truthy parameters.max_latency_ms then
    applyMaxLatency fcr3.1 fcr3.2.1 (parameters.max_latency_ms.getD 0)
    else (fcr3.1, fcr3.2.1)
  let projectedMetrics := MetricsCalculator.calculateStrategyMetrics env.today sqrtA
    strategyId fc4.1 fc4.2 fcr3.2.2 strategyLatency
  let projectedMetrics := if truthy parameters.risk_multiplier then
    { projectedMetrics with
      total_pnl := projectedMetrics.total_pnl * parameters.risk_multiplier.getD 0
      total_volume := projectedMetrics.total_volume * parameters.risk_multiplier.getD 0 }
    else projectedMetrics
  { id := "scenario-" ++ env.nowStr ++ "-" ++ env.randStr
    name := generateScenarioName parameters
    strategy_id := strategyId
    parameters := parameters
    projected_metrics := projectedMetrics
    created_at := env.nowMs }

/-- Entry of the `comparison` array returned by `compareScenarios`. -/
structure ScenarioComparison where
  scenario : WhatIfScenario
  pnlDiff : ℚ
  fillRateDiff : ℚ
  latencyDiff : ℚ
  deriving DecidableEq, Repr

/-- Result record of `compareScenarios`. -/
structure ComparisonResult where
  best : WhatIfScenario
  worst : WhatIfScenario
  comparison : List ScenarioComparison
  deriving DecidableEq, Repr

/-- Reducer of the `best` computation: keep the scenario with the larger
projected `total_pnl`, preferring the earlier one on ties. -/
def betterOf (prev curr : WhatIfScenario) : WhatIfScenario :=
  if curr.projected_metrics.total_pnl > prev.projected_metrics.total_pnl then curr else prev

/-- Reducer of the `worst` computation: keep the scenario with the smaller
projected `total_pnl`, preferring the earlier one on ties. -/
def worseOf (prev curr : WhatIfScenario) : WhatIfScenario :=
  if curr.projected_metrics.total_pnl < prev.projected_metrics.total_pnl then curr else prev

/-- Embedding of `WhatIfSimulator.compareScenarios`: throws on an empty list
(modelled as `Except.error`), otherwise reduces for best/worst and diffs
every scenario against `scenarios[0]`. -/
def compareScenarios : List WhatIfScenario → Except String ComparisonResult
  | [] => Except.error "No scenarios to compare"
  | s :: rest =>
    let best := rest.foldl betterOf s
    let worst := rest.foldl worseOf s
    let baseline := s
    let comparison := (s :: rest).map (fun scenario =>
      { scenario := scenario
        pnlDiff := scenario.projected_metrics.total_pnl - baseline.projected_metrics.total_pnl
        fillRateDiff := scenario.projected_metrics.fill_rate - baseline.projected_metrics.fill_rate
        latencyDiff := scenario.projected_metrics.avg_latency_ms -
          baseline.projected_metrics.avg_latency_ms })
    Except.ok { best := best, worst := worst, comparison := comparison }

end WhatIfSimulator

/-! ## AnomalyDetector (`lib/anomaly/detector.ts`, quoted in
`docs/DEVELOPMENT.md`) -/

namespace AnomalyDetector

/-- Embedding of the private helper `calculateSeverity`: bucket `value`
against three ascending thresholds. -/
def calculateSeverity (value t1 t2 t3 : ℚ) : Severity :=
  if value < t1 then Severity.low
  else if value < t2 then Severity.medium
  else if value < t3 then Severity.high
  else Severity.critical

/-- Placeholder latency metric for total index access; every access in the
detector is within bounds, so the placeholder is never observed. -/
def dfltLatencyMetric : LatencyMetric :=
  { id := "", timestamp := 0, strategy_id := "", metric_type := "", latency_ms := 0 }

/-- Latency values of the sliding window `sorted.slice(i - w, i)`. -/
def latWindow (sorted : List LatencyMetric) (w i : ℕ) : List ℚ :=
  ((sorted.drop (i - w)).take w).map (·.latency_ms)

/-- Flag condition of `detectLatencySpikes` at index `i` of the sorted
sample list: `zScore > 3 || currentLatency > thresholds.latencySpike`, where
`zScore = (current - mean) / (stdDev || 1)`.  The z-score comparison is
encoded exactly by its signed square: `z > 3 ↔ zSig num variance > 9`. -/
def latencyFlag (thr : AnomalyThresholds) (sorted : List LatencyMetric)
    (w i : ℕ) : Bool :=
  let lats := latWindow sorted w i
  let mean := meanQ lats
  let variance := varQ lats
  let currentLatency := (sorted.getD i dfltLatencyMetric).latency_ms
  decide (zSig (currentLatency - mean) variance > 9) ||
    decide (currentLatency > thr.latencySpike)

/-- Anomaly record pushed by `detectLatencySpikes` at index `i`.  Severity
buckets the z-score against `[2, 3, 4]`, encoded via the signed square
against `[4, 9, 16]`; the reported `threshold_value` is `mean + 3 * stdDev`
and the description interpolates the approximate z-score, both using the
abstract `Math.sqrt` model `sqrtA`. -/
def latencyEmit (env : Env) (sqrtA : ℚ → ℚ) (sorted : List LatencyMetric)
    (w i : ℕ) : Anomaly :=
  let lats := latWindow sorted w i
  let mean := meanQ lats
  let variance := varQ lats
  let stdDev := sqrtA variance
  let current := sorted.getD i dfltLatencyMetric
  let zApprox := (current.latency_ms - mean) / jsOr1 stdDev
  { id := "anomaly-latency-" ++ env.nowStr ++ "-" ++ env.randStr
    timestamp := current.timestamp
    strategy_id := current.strategy_id
    anomaly_type := AnomalyType.latency_spike
    severity := calculateSeverity (zSig (current.latency_ms - mean) variance) 4 9 16
    description := "Latency spike detected: " ++ fmtFixed 2 current.latency_ms ++ "ms (" ++
      fmtFixed 2 zApprox ++ " std devs above mean)"
    metric_value := current.latency_ms
    threshold_value := mean + 3 * stdDev
    detected_at := env.nowMs }

/-- The `for (let i = windowSize; i < sortedMetrics.length; i++)` loop of
`detectLatencySpikes`, pushing one anomaly per flagged index. -/
def latSpikeLoop (env : Env) (sqrtA : ℚ → ℚ) (thr : AnomalyThresholds)
    (sorted : List LatencyMetric) (w i : ℕ) : List Anomaly :=
  if _h : i < sorted.length then
    (if latencyFlag thr sorted w i then [latencyEmit env sqrtA sorted w i] else []) ++
      latSpikeLoop env sqrtA thr sorted w (i + 1)
  else []
termination_by sorted.length - i
decreasing_by omega

/-- Embedding of `AnomalyDetector.detectLatencySpikes`: fewer than
`windowSize` samples yield no anomalies; otherwise the samples are sorted by
timestamp (stably) and scanned from index `windowSize`. -/
def detectLatencySpikes (env : Env) (sqrtA : ℚ → ℚ) (thr : AnomalyThresholds)
    (metrics : List LatencyMetric) (windowSize : ℕ) : List Anomaly :=
  if metrics.length < windowSize then []
  else
    latSpikeLoop env sqrtA thr
      (List.insertionSort (fun a b => a.timestamp ≤ b.timestamp) metrics) windowSize windowSize

/-- Reading of `detectLatencySpikes` with the z-score divisor the claim and
specification describe, `max(stdDev, 1)` instead of the source's
`stdDev || 1`; encoded exactly via `zSigSpec` (`max (sqrt v) 1 ^ 2 = max v 1`
for `v ≥ 0`).  Used only to compare the claim against the code. -/
def latencyFlagSpec (thr : AnomalyThresholds) (sorted : List LatencyMetric)
    (w i : ℕ) : Bool :=
  let lats := latWindow sorted w i
  let mean := meanQ lats
  let variance := varQ lats
  let currentLatency := (sorted.getD i dfltLatencyMetric).latency_ms
  decide (zSigSpec (currentLatency - mean) variance > 9) ||
    decide (currentLatency > thr.latencySpike)

/-- Loop of the claim's reading of `detectLatencySpikes`. -/
def latSpikeLoopSpec (env : Env) (sqrtA : ℚ → ℚ) (thr : AnomalyThresholds)
    (sorted : List LatencyMetric) (w i : ℕ) : List Anomaly :=
  if _h : i < sorted.length then
    (if latencyFlagSpec thr sorted w i then [latencyEmit env sqrtA sorted w i] else []) ++
      latSpikeLoopSpec env sqrtA thr sorted w (i + 1)
  else []
termination_by sorted.length - i
decreasing_by omega

/-- The claim's reading of `detectLatencySpikes` (z-score divisor
`max(stdDev, 1)`). -/
def detectLatencySpikesSpec (env : Env) (sqrtA : ℚ → ℚ) (thr : AnomalyThresholds)
    (metrics : List LatencyMetric) (windowSize : ℕ) : List Anomaly :=
  if metrics.length < windowSize then []
  else
    latSpikeLoopSpec env sqrtA thr
      (List.insertionSort (fun a b => a.timestamp ≤ b.timestamp) metrics) windowSize windowSize

/-- Tagged event sequence scanned by `detectHighRejectRate`: the source adds
all fills, then all cancels, then all rejects to its nested strategy/window
maps.  Tag 0 = fill, 1 = cancel, 2 = reject. -/
def rejSeq (fills : List Fill) (cancels : List Cancel) (rejects : List Reject) :
    List (String × ℚ × ℕ) :=
  fills.map (fun f => (f.strategy_id, f.timestamp, 0)) ++
  cancels.map (fun c => (c.strategy_id, c.timestamp, 1)) ++
  rejects.map (fun r => (r.strategy_id, r.timestamp, 2))

/-- Selection logic of `detectHighRejectRate`: for each strategy (in first
occurrence order) and each of its windows (in first occurrence order), skip
windows with fewer than 5 events and flag those with
`rejects/total > thresholds.highRejectRate`.  Produces the tuple
`(strategy, windowKey, rejectCount, total, rejectRate)` per flagged window;
the env-dependent record fields are added by `rejectEmit`. -/
def rejectCore (thr : AnomalyThresholds) (fills : List Fill) (cancels : List Cancel)
    (rejects : List Reject) (w : ℕ) : List (String × ℤ × ℕ × ℕ × ℚ) :=
  let seq := rejSeq fills cancels rejects
  (dedupFirst (seq.map (·.1))).flatMap (fun sid =>
    let sseq := seq.filter (fun e => decide (e.1 = sid))
    (dedupFirst (sseq.map (fun e => wkey w e.2.1))).filterMap (fun k =>
      let win := sseq.filter (fun e => decide (wkey w e.2.1 = k))
      let nFills := (win.filter (fun e => decide (e.2.2 = 0))).length
      let nCancels := (win.filter (fun e => decide (e.2.2 = 1))).length
      let nRejects := (win.filter (fun e => decide (e.2.2 = 2))).length
      let total := nFills + nCancels + nRejects
      if total < 5 then none
      else
        let rejectRate : ℚ := (nRejects : ℚ) / (total : ℚ)
        if rejectRate > thr.highRejectRate then some (sid, k, nRejects, total, rejectRate)
        else none))

/-- Anomaly record pushed by `detectHighRejectRate` for a flagged window. -/
def rejectEmit (env : Env) (thr : AnomalyThresholds) (w : ℕ)
    (t : String × ℤ × ℕ × ℕ × ℚ) : Anomaly :=
  { id := "anomaly-reject-" ++ env.nowStr ++ "-" ++ env.randStr
    timestamp := wstart w t.2.1
    strategy_id := t.1
    anomaly_type := AnomalyType.high_reject_rate
    severity := calculateSeverity t.2.2.2.2 (1 / 10) (3 / 20) (1 / 4)
    description := "High reject rate detected: " ++ fmtFixed 1 (t.2.2.2.2 * 100) ++ "% (" ++
      toString t.2.2.1 ++ "/" ++ toString t.2.2.2.1 ++ " orders)"
    metric_value := t.2.2.2.2
    threshold_value := thr.highRejectRate
    detected_at := env.nowMs }

/-- Embedding of `AnomalyDetector.detectHighRejectRate`; the source builds
each record inside the scan loop, and the env-dependent fields (`id`,
`detected_at`) are factored into `rejectEmit`. -/
def detectHighRejectRate (env : Env) (thr : AnomalyThresholds) (fills : List Fill)
    (cancels : List Cancel) (rejects : List Reject) (w : ℕ) : List Anomaly :=
  (rejectCore thr fills cancels rejects w).map (rejectEmit env thr w)

/-- Selection logic of `detectUnusualVolume`: strategies in first occurrence
order over the fills; per strategy, the 60-minute volume series must have at
least 5 points; among the last 5 points, flag those with
`value > avgVolume * thresholds.volumeMultiplier`.  Produces
`(strategy, timestamp, value, multiplier, thresholdValue)`. -/
def volumeCore (thr : AnomalyThresholds) (fills : List Fill) (w : ℕ) :
    List (String × ℚ × ℚ × ℚ × ℚ) :=
  (dedupFirst (fills.map (·.strategy_id))).flatMap (fun sid =>
    let strategyFills := fills.filter (fun f => decide (f.strategy_id = sid))
    let volumeSeries := MetricsCalculator.calculateVolumeTimeSeries strategyFills w
    if volumeSeries.length < 5 then []
    else
      let avgVolume := meanQ (volumeSeries.map (·.value))
      (volumeSeries.drop (volumeSeries.length - 5)).filterMap (fun p =>
        if p.value > avgVolume * thr.volumeMultiplier then
          some (sid, p.timestamp, p.value, p.value / avgVolume, avgVolume * thr.volumeMultiplier)
        else none))

/-- Anomaly record pushed by `detectUnusualVolume` for a flagged window. -/
def volumeEmit (env : Env) (t : String × ℚ × ℚ × ℚ × ℚ) : Anomaly :=
  { id := "anomaly-volume-" ++ env.nowStr ++ "-" ++ env.randStr
    timestamp := t.2.1
    strategy_id := t.1
    anomaly_type := AnomalyType.unusual_volume
    severity := calculateSeverity t.2.2.2.1 2 3 5
    description := "Unusual volume spike: " ++ fmtFixed 0 t.2.2.1 ++ " (" ++
      fmtFixed 1 t.2.2.2.1 ++ "x average)"
    metric_value := t.2.2.1
    threshold_value := t.2.2.2.2
    detected_at := env.nowMs }

/-- Embedding of `AnomalyDetector.detectUnusualVolume`. -/
def detectUnusualVolume (env : Env) (thr : AnomalyThresholds) (fills : List Fill)
    (w : ℕ) : List Anomaly :=
  (volumeCore thr fills w).map (volumeEmit env)

/-- Selection logic of `detectFillRateDrop`: strategies are the set of ids
occurring in fills or cancels (first occurrence order); per strategy the
fill-rate series must have at least 5 points; among the last 5 points, flag
those with `value < avgFillRate * thresholds.fillRateDrop` while
`avgFillRate > 0.5`.  Produces `(strategy, timestamp, value, avgFillRate)`. -/
def fillRateCore (thr : AnomalyThresholds) (fills : List Fill) (cancels : List Cancel)
    (rejects : List Reject) (w : ℕ) : List (String × ℚ × ℚ × ℚ) :=
  (dedupFirst (fills.map (·.strategy_id) ++ cancels.map (·.strategy_id))).flatMap (fun sid =>
    let strategyFills := fills.filter (fun f => decide (f.strategy_id = sid))
    let strategyCancels := cancels.filter (fun c => decide (c.strategy_id = sid))
    let strategyRejects := rejects.filter (fun r => decide (r.strategy_id = sid))
    let fillRateSeries := MetricsCalculator.calculateFillRateTimeSeries strategyFills
      strategyCancels strategyRejects w
    if fillRateSeries.length < 5 then []
    else
      let avgFillRate := meanQ (fillRateSeries.map (·.value))
      (fillRateSeries.drop (fillRateSeries.length - 5)).filterMap (fun p =>
        if p.value < avgFillRate * thr.fillRateDrop ∧ avgFillRate > 1 / 2 then
          some (sid, p.timestamp, p.value, avgFillRate)
        else none))

/-- Anomaly record pushed by `detectFillRateDrop` for a flagged window; the
severity buckets the percentage drop `((avg - value)/avg) * 100` against
`[20, 40, 60]`. -/
def fillRateEmit (env : Env) (thr : AnomalyThresholds) (t : String × ℚ × ℚ × ℚ) : Anomaly :=
  let dropPercentage := (t.2.2.2 - t.2.2.1) / t.2.2.2 * 100
  { id := "anomaly-fillrate-" ++ env.nowStr ++ "-" ++ env.randStr
    timestamp := t.2.1
    strategy_id := t.1
    anomaly_type := AnomalyType.fill_rate_drop
    severity := calculateSeverity dropPercentage 20 40 60
    description := "Fill rate drop detected: " ++ fmtFixed 1 (t.2.2.1 * 100) ++ "% (down " ++
      fmtFixed 1 dropPercentage ++ "% from average)"
    metric_value := t.2.2.1
    threshold_value := t.2.2.2 * thr.fillRateDrop
    detected_at := env.nowMs }

/-- Embedding of `AnomalyDetector.detectFillRateDrop`. -/
def detectFillRateDrop (env : Env) (thr : AnomalyThresholds) (fills : List Fill)
    (cancels : List Cancel) (rejects : List Reject) (w : ℕ) : List Anomaly :=
  (fillRateCore thr fills cancels rejects w).map (fillRateEmit env thr)

/-- Embedding of `AnomalyDetector.detectAll`: concatenate the four detector
outputs (with the source's default window sizes) and sort descending by
timestamp; JavaScript's stable sort is modelled by `insertionSort`. -/
def detectAll (env : Env) (sqrtA : ℚ → ℚ) (thr : AnomalyThresholds)
    (fills : List Fill) (cancels : List Cancel) (rejects : List Reject)
    (latencyMetrics : List LatencyMetric) : List Anomaly :=
  List.insertionSort (fun a b => b.timestamp ≤ a.timestamp)
    (detectLatencySpikes env sqrtA thr latencyMetrics 20 ++
     detectHighRejectRate env thr fills cancels rejects 60 ++
     detectUnusualVolume env thr fills 60 ++
     detectFillRateDrop env thr fills cancels rejects 60)

/-- Env-independent projection of an anomaly: every field except the
generated `id` and the `detected_at` stamp. -/
structure AnomalyCore where
  timestamp : ℚ
  strategy_id : String
  anomaly_type : AnomalyType
  severity : Severity
  description : String
  metric_value : ℚ
  threshold_value : ℚ
  deriving DecidableEq, Repr

/-- Forget the `id` and `detected_at` fields of an anomaly. -/
def stripAnomaly (a : Anomaly) : AnomalyCore :=
  { timestamp := a.timestamp
    strategy_id := a.strategy_id
    anomaly_type := a.anomaly_type
    severity := a.severity
    description := a.description
    metric_value := a.metric_value
    threshold_value := a.threshold_value }

end AnomalyDetector

/-! ## Helper lemmas -/

/-- Filtering twice with the same predicate filters once. -/
theorem filter_filter_self (l : List α) (p : α → Bool) :
    (l.filter p).filter p = l.filter p := by
  simp [List.filter_filter]

/-- Indexing with a default into a `≤`-sorted list of rationals is monotone
in the index while it stays in bounds. -/
theorem getD_mono_of_sorted {L : List ℚ} (h : L.Sorted (· ≤ ·)) {i j : ℕ}
    (hij : i ≤ j) (hj : j < L.length) : L.getD i 0 ≤ L.getD j 0 := by
  have hi : i < L.length := lt_of_le_of_lt hij hj
  rw [List.getD_eq_getElem L 0 hi, List.getD_eq_getElem L 0 hj]
  have := h.rel_get_of_le (a := ⟨i, hi⟩) (b := ⟨j, hj⟩) hij
  simpa using this

/-! ## C1: rate fields of `calculatePerformanceMetrics` partition -/

/-- C1.  For every input event set, `calculatePerformanceMetrics` returns
rate fields with `fillRate + cancelRate + rejectRate = 1` whenever
`totalOrders = |fills| + |cancels| + |rejects| > 0`, and all three rates are
0 when `totalOrders = 0`. -/
theorem calculatePerformanceMetrics_rates_partition (sqrtA : ℚ → ℚ)
    (fills : List Fill) (cancels : List Cancel) (rejects : List Reject)
    (latencyMetrics : List LatencyMetric) :
    (0 < fills.length + cancels.length + rejects.length →
      (MetricsCalculator.calculatePerformanceMetrics sqrtA fills cancels rejects
        latencyMetrics).fillRate +
      (MetricsCalculator.calculatePerformanceMetrics sqrtA fills cancels rejects
        latencyMetrics).cancelRate +
      (MetricsCalculator.calculatePerformanceMetrics sqrtA fills cancels rejects
        latencyMetrics).rejectRate = 1) ∧
    (fills.length + cancels.length + rejects.length = 0 →
      (MetricsCalculator.calculatePerformanceMetrics sqrtA fills cancels rejects
        latencyMetrics).fillRate = 0 ∧
      (MetricsCalculator.calculatePerformanceMetrics sqrtA fills cancels rejects
        latencyMetrics).cancelRate = 0 ∧
      (MetricsCalculator.calculatePerformanceMetrics sqrtA fills cancels rejects
        latencyMetrics).rejectRate = 0) := by
  constructor
  · intro h
    have ht : ((fills.length + cancels.length + rejects.length : ℕ) : ℚ) ≠ 0 := by
      exact_mod_cast h.ne'
    simp only [MetricsCalculator.calculatePerformanceMetrics, if_pos h]
    push_cast at ht ⊢
    field_simp
  · intro h
    simp [MetricsCalculator.calculatePerformanceMetrics, h]

/-- Witness for C1 at a concrete one-fill input and at the empty input. -/
theorem calculatePerformanceMetrics_rates_partition_witness :
    (MetricsCalculator.calculatePerformanceMetrics (fun _ => 0)
      [{ id := "f1", timestamp := 0, strategy_id := "S1", symbol := "AAPL",
         side := Side.buy, quantity := 10, price := 100, venue := "V",
         latency_ms := 5, order_id := "o1" }] [] [] []).fillRate +
    (MetricsCalculator.calculatePerformanceMetrics (fun _ => 0)
      [{ id := "f1", timestamp := 0, strategy_id := "S1", symbol := "AAPL",
         side := Side.buy, quantity := 10, price := 100, venue := "V",
         latency_ms := 5, order_id := "o1" }] [] [] []).cancelRate +
    (MetricsCalculator.calculatePerformanceMetrics (fun _ => 0)
      [{ id := "f1", timestamp := 0, strategy_id := "S1", symbol := "AAPL",
         side := Side.buy, quantity := 10, price := 100, venue := "V",
         latency_ms := 5, order_id := "o1" }] [] [] []).rejectRate = 1 :=
  (calculatePerformanceMetrics_rates_partition (fun _ => 0) _ [] [] []).1 (by decide)

/-! ## C2: latency percentiles are non-decreasing -/

/-- C2.  For every list of latency samples the percentiles returned by
`calculateLatencyPercentiles` satisfy `p50 ≤ p95 ≤ p99` (each selects from
the same ascending-sorted sequence at index `floor(n * p)` clamped to
`n - 1`), and the empty input yields all-zero statistics. -/
theorem calculateLatencyPercentiles_monotone (metrics : List LatencyMetric) :
    ((MetricsCalculator.calculateLatencyPercentiles metrics).p50 ≤
      (MetricsCalculator.calculateLatencyPercentiles metrics).p95 ∧
     (MetricsCalculator.calculateLatencyPercentiles metrics).p95 ≤
      (MetricsCalculator.calculateLatencyPercentiles metrics).p99) ∧
    MetricsCalculator.calculateLatencyPercentiles [] =
      { p50 := 0, p95 := 0, p99 := 0, avg := 0 } := by
  refine ⟨?_, rfl⟩
  by_cases hm : metrics.length = 0
  · simp [MetricsCalculator.calculateLatencyPercentiles, hm]
  · have hn : 0 < metrics.length := Nat.pos_of_ne_zero hm
    set L := List.insertionSort (· ≤ ·) (metrics.map (·.latency_ms)) with hL
    have hsorted : L.Sorted (· ≤ ·) := List.sorted_insertionSort _ _
    have hlen : L.length = metrics.length := by
      rw [hL, List.length_insertionSort, List.length_map]
    have hidx : ∀ p q : ℚ, 0 ≤ p → p ≤ q →
        min (⌊(L.length : ℚ) * p⌋).toNat (L.length - 1) ≤
          min (⌊(L.length : ℚ) * q⌋).toNat (L.length - 1) := by
      intro p q hp hpq
      exact min_le_min (Int.toNat_le_toNat (Int.floor_le_floor
        (mul_le_mul_of_nonneg_left hpq (by positivity)))) le_rfl
    have hbound : ∀ p : ℚ, min (⌊(L.length : ℚ) * p⌋).toNat (L.length - 1) < L.length := by
      intro p
      calc min (⌊(L.length : ℚ) * p⌋).toNat (L.length - 1) ≤ L.length - 1 := min_le_right _ _
        _ < L.length := Nat.sub_lt (hlen ▸ hn) one_pos
    simp only [MetricsCalculator.calculateLatencyPercentiles, if_neg hm, ← hL]
    exact ⟨getD_mono_of_sorted hsorted (hidx _ _ (by norm_num) (by norm_num)) (hbound _),
      getD_mono_of_sorted hsorted (hidx _ _ (by norm_num) (by norm_num)) (hbound _)⟩

/-! ## C3: the no-op pipeline changes nothing -/

/-- C3.  For every strategy id and every input event set, `simulateScenario`
with an empty parameters object returns `projected_metrics` identical to
`calculateStrategyMetrics` applied to the same unmodified event set. -/
theorem simulateScenario_noop_projected_metrics (env : Env) (sqrtA : ℚ → ℚ)
    (strategyId : String) (fills : List Fill) (cancels : List Cancel)
    (rejects : List Reject) (latencyMetrics : List LatencyMetric) :
    (WhatIfSimulator.simulateScenario env sqrtA strategyId fills cancels rejects
      latencyMetrics {}).projected_metrics =
    MetricsCalculator.calculateStrategyMetrics env.today sqrtA strategyId fills cancels
      rejects latencyMetrics := by
  simp only [WhatIfSimulator.simulateScenario, WhatIfSimulator.truthy, Bool.false_eq_true,
    if_false, MetricsCalculator.calculateStrategyMetrics, filter_filter_self]

/-! ## C10: parameter fields set to 0 behave as absent -/

/-- Collapse of a parameter field to its truthiness: a field that is absent
or explicitly 0 becomes `none`, every other field is kept. -/
def zOpt (o : Option ℚ) : Option ℚ := if WhatIfSimulator.truthy o then o else none

/-- Apply `zOpt` to every field of a parameters object. -/
def zParams (p : SimulationParameters) : SimulationParameters :=
  { max_position_size := zOpt p.max_position_size
    order_timeout_ms := zOpt p.order_timeout_ms
    min_fill_rate := zOpt p.min_fill_rate
    max_latency_ms := zOpt p.max_latency_ms
    risk_multiplier := zOpt p.risk_multiplier }

theorem truthy_zOpt (o : Option ℚ) : WhatIfSimulator.truthy (zOpt o) = WhatIfSimulator.truthy o := by
  unfold zOpt
  cases h : WhatIfSimulator.truthy o
  · simp [h, WhatIfSimulator.truthy]
  · simp [h]

theorem zOpt_eq_of_truthy {o : Option ℚ} (h : WhatIfSimulator.truthy o = true) : zOpt o = o := by
  simp [zOpt, h]

/-- C10.  A simulation parameter field explicitly set to 0 is treated by
`simulateScenario` exactly as if the field were absent (the stage is skipped
and the metrics are unscaled), and a parameters object whose fields are all
0 or absent is named "Default Scenario". -/
theorem simulateScenario_zero_params_as_absent (env : Env) (sqrtA : ℚ → ℚ)
    (strategyId : String) (fills : List Fill) (cancels : List Cancel)
    (rejects : List Reject) (latencyMetrics : List LatencyMetric)
    (p : SimulationParameters) :
    ((WhatIfSimulator.simulateScenario env sqrtA strategyId fills cancels rejects
        latencyMetrics (zParams p)).projected_metrics =
      (WhatIfSimulator.simulateScenario env sqrtA strategyId fills cancels rejects
        latencyMetrics p).projected_metrics) ∧
    ((WhatIfSimulator.simulateScenario env sqrtA strategyId fills cancels rejects
        latencyMetrics (zParams p)).name =
      (WhatIfSimulator.simulateScenario env sqrtA strategyId fills cancels rejects
        latencyMetrics p).name) ∧
    (WhatIfSimulator.truthy p.max_position_size = false ∧
     WhatIfSimulator.truthy p.order_timeout_ms = false ∧
     WhatIfSimulator.truthy p.min_fill_rate = false ∧
     WhatIfSimulator.truthy p.max_latency_ms = false ∧
     WhatIfSimulator.truthy p.risk_multiplier = false →
      (WhatIfSimulator.simulateScenario env sqrtA strategyId fills cancels rejects
        latencyMetrics p).name = "Default Scenario") := by
  refine ⟨?_, ?_, ?_⟩
  · simp only [WhatIfSimulator.simulateScenario, zParams, truthy_zOpt]
    split_ifs with h1 h2 h3 h4 h5 <;>
      simp_all [zOpt_eq_of_truthy]
  · simp only [WhatIfSimulator.simulateScenario, WhatIfSimulator.generateScenarioName,
      zParams, truthy_zOpt]
    split_ifs with h1 h2 h3 h4 h5 <;>
      simp_all [zOpt_eq_of_truthy]
  · intro h
    obtain ⟨h1, h2, h3, h4, h5⟩ := h
    simp [WhatIfSimulator.simulateScenario, WhatIfSimulator.generateScenarioName,
      h1, h2, h3, h4, h5]

/-- Witness for C10 at a parameters object with two fields explicitly 0. -/
theorem simulateScenario_zero_params_witness :
    (WhatIfSimulator.simulateScenario
      { nowMs := 0, nowStr := "0", randStr := "r", today := "2026-10-11", rand := fun _ => 0 }
      (fun _ => 0) "S1" [] [] [] []
      { max_position_size := some 0, min_fill_rate := some 0 }).name = "Default Scenario" :=
  (simulateScenario_zero_params_as_absent
    { nowMs := 0, nowStr := "0", randStr := "r", today := "2026-10-11", rand := fun _ => 0 }
    (fun _ => 0) "S1" [] [] [] []
    { max_position_size := some 0, min_fill_rate := some 0 }).2.2 (by decide)

/-! ## C4: contract of `compareScenarios` -/

theorem foldl_betterOf_mem (s : WhatIfScenario) (rest : List WhatIfScenario) :
    rest.foldl WhatIfSimulator.betterOf s ∈ s :: rest := by
  induction rest generalizing s with
  | nil => simp
  | cons c cs ih =>
    simp only [List.foldl_cons]
    rcases List.mem_cons.mp (ih (WhatIfSimulator.betterOf s c)) with h1 | h1
    · rw [h1]
      unfold WhatIfSimulator.betterOf
      split
      · exact List.mem_cons_of_mem _ (List.mem_cons_self _ _)
      · exact List.mem_cons_self _ _
    · exact List.mem_cons_of_mem _ (List.mem_cons_of_mem _ h1)

theorem foldl_betterOf_le (s : WhatIfScenario) (rest : List WhatIfScenario) :
    ∀ x ∈ s :: rest, x.projected_metrics.total_pnl ≤
      (rest.foldl WhatIfSimulator.betterOf s).projected_metrics.total_pnl := by
  induction rest generalizing s with
  | nil => intro x hx; simp at hx; simp [hx]
  | cons c cs ih =>
    intro x hx
    have hs : s.projected_metrics.total_pnl ≤
        (WhatIfSimulator.betterOf s c).projected_metrics.total_pnl := by
      unfold WhatIfSimulator.betterOf; split <;> [linarith; exact le_rfl]
    have hc : c.projected_metrics.total_pnl ≤
        (WhatIfSimulator.betterOf s c).projected_metrics.total_pnl := by
      unfold WhatIfSimulator.betterOf; split <;> [exact le_rfl; linarith]
    have hhead := ih (WhatIfSimulator.betterOf s c) (WhatIfSimulator.betterOf s c)
      (List.mem_cons_self _ _)
    rcases List.mem_cons.mp hx with h1 | h1
    · subst h1; exact le_trans hs hhead
    rcases List.mem_cons.mp h1 with h2 | h2
    · subst h2; exact le_trans hc hhead
    · exact ih (WhatIfSimulator.betterOf s c) x (List.mem_cons_of_mem _ h2)

theorem foldl_worseOf_mem (s : WhatIfScenario) (rest : List WhatIfScenario) :
    rest.foldl WhatIfSimulator.worseOf s ∈ s :: rest := by
  induction rest generalizing s with
  | nil => simp
  | cons c cs ih =>
    simp only [List.foldl_cons]
    rcases List.mem_cons.mp (ih (WhatIfSimulator.worseOf s c)) with h1 | h1
    · rw [h1]
      unfold WhatIfSimulator.worseOf
      split
      · exact List.mem_cons_of_mem _ (List.mem_cons_self _ _)
      · exact List.mem_cons_self _ _
    · exact List.mem_cons_of_mem _ (List.mem_cons_of_mem _ h1)

theorem foldl_worseOf_le (s : WhatIfScenario) (rest : List WhatIfScenario) :
    ∀ x ∈ s :: rest, (rest.foldl WhatIfSimulator.worseOf s).projected_metrics.total_pnl ≤
      x.projected_metrics.total_pnl := by
  induction rest generalizing s with
  | nil => intro x hx; simp at hx; simp [hx]
  | cons c cs ih =>
    intro x hx
    have hs : (WhatIfSimulator.worseOf s c).projected_metrics.total_pnl ≤
        s.projected_metrics.total_pnl := by
      unfold WhatIfSimulator.worseOf; split <;> [linarith; exact le_rfl]
    have hc : (WhatIfSimulator.worseOf s c).projected_metrics.total_pnl ≤
        c.projected_metrics.total_pnl := by
      unfold WhatIfSimulator.worseOf; split <;> [exact le_rfl; linarith]
    have hhead := ih (WhatIfSimulator.worseOf s c) (WhatIfSimulator.worseOf s c)
      (List.mem_cons_self _ _)
    rcases List.mem_cons.mp hx with h1 | h1
    · subst h1; exact le_trans hhead hs
    rcases List.mem_cons.mp h1 with h2 | h2
    · subst h2; exact le_trans hhead hc
    · exact ih (WhatIfSimulator.worseOf s c) x (List.mem_cons_of_mem _ h2)

/-- C4.  `compareScenarios` fails with an error exactly on the empty list;
on every non-empty list it succeeds with `best`/`worst` attaining the
maximal/minimal projected `total_pnl`, and a per-scenario comparison of
pnl/fill-rate/latency differences against `scenarios[0]`, whose first entry
has `pnlDiff = 0`. -/
theorem compareScenarios_contract :
    (∀ l : List WhatIfScenario,
      (∃ e, WhatIfSimulator.compareScenarios l = Except.error e) ↔ l = []) ∧
    (∀ (s : WhatIfScenario) (rest : List WhatIfScenario), ∃ res,
      WhatIfSimulator.compareScenarios (s :: rest) = Except.ok res ∧
      res.best ∈ s :: rest ∧
      (∀ x ∈ s :: rest, x.projected_metrics.total_pnl ≤
        res.best.projected_metrics.total_pnl) ∧
      res.worst ∈ s :: rest ∧
      (∀ x ∈ s :: rest, res.worst.projected_metrics.total_pnl ≤
        x.projected_metrics.total_pnl) ∧
      res.comparison = (s :: rest).map (fun scenario =>
        { scenario := scenario
          pnlDiff := scenario.projected_metrics.total_pnl - s.projected_metrics.total_pnl
          fillRateDiff := scenario.projected_metrics.fill_rate - s.projected_metrics.fill_rate
          latencyDiff := scenario.projected_metrics.avg_latency_ms -
            s.projected_metrics.avg_latency_ms }) ∧
      res.comparison.head?.map (·.pnlDiff) = some 0) := by
  constructor
  · intro l
    cases l with
    | nil => exact ⟨fun _ => rfl, fun _ => ⟨"No scenarios to compare", rfl⟩⟩
    | cons s rest =>
      constructor
      · rintro ⟨e, he⟩
        simp [WhatIfSimulator.compareScenarios] at he
      · intro h
        exact absurd h (List.cons_ne_nil s rest)
  · intro s rest
    refine ⟨_, rfl, foldl_betterOf_mem s rest, foldl_betterOf_le s rest,
      foldl_worseOf_mem s rest, foldl_worseOf_le s rest, rfl, ?_⟩
    simp

/-! ## C5: the position-size stage -/

/-- One step of the position replay as the amended claim words it: keep the
fill exactly when applying its signed quantity keeps the absolute running
position within the limit. -/
def posStep (maxSize : ℚ) (st : ℚ × List Fill) (fill : Fill) : ℚ × List Fill :=
  let positionChange := if fill.side = Side.buy then fill.quantity else -fill.quantity
  if |st.1 + positionChange| ≤ maxSize then (st.1 + positionChange, st.2 ++ [fill]) else st

/-- The amended claim's formulation of the position-size stage: replay the
fills in input order by a left fold over the running signed position. -/
def positionReplayInInputOrder (fills : List Fill) (maxSize : ℚ) : List Fill :=
  (fills.foldl (posStep maxSize) (0, [])).2

/-- The original claim's formulation of the position-size stage: replay the
fills in timestamp order (stable sort by timestamp before the replay). -/
def positionReplayByTimestamp (fills : List Fill) (maxSize : ℚ) : List Fill :=
  WhatIfSimulator.posGo maxSize 0
    (List.insertionSort (fun a b => a.timestamp ≤ b.timestamp) fills)

theorem foldl_posStep (m : ℚ) :
    ∀ (l : List Fill) (pos : ℚ) (acc : List Fill),
      (l.foldl (posStep m) (pos, acc)).2 = acc ++ WhatIfSimulator.posGo m pos l := by
  intro l
  induction l with
  | nil => intro pos acc; simp [WhatIfSimulator.posGo]
  | cons f rest ih =>
    intro pos acc
    simp only [List.foldl_cons, posStep, WhatIfSimulator.posGo]
    by_cases h : |pos + (if f.side = Side.buy then f.quantity else -f.quantity)| ≤ m
    · simp only [if_pos h, ih, List.append_assoc, List.singleton_append]
    · simp only [if_neg h, ih]

theorem posGo_sublist (m : ℚ) : ∀ (pos : ℚ) (l : List Fill),
    (WhatIfSimulator.posGo m pos l).Sublist l := by
  intro pos l
  induction l generalizing pos with
  | nil => simp [WhatIfSimulator.posGo]
  | cons f rest ih =>
    simp only [WhatIfSimulator.posGo]
    by_cases h : |pos + (if f.side = Side.buy then f.quantity else -f.quantity)| ≤ m
    · rw [if_pos h]
      exact List.Sublist.cons₂ f (ih _)
    · rw [if_neg h]
      exact List.Sublist.cons f (ih _)

/-- C5 (amended).  When `max_position_size` is set, the position-size stage
replays the fills in the order of the input list (not sorted by timestamp),
maintaining a running signed position (buy adds the quantity, sell subtracts
it), keeps a fill if and only if applying it keeps the absolute position
within the limit, and drops rejected fills entirely: they are a sublist of
the input and the simulated cancel set is untouched by the stage. -/
theorem applyPositionSizeLimit_input_order_replay :
    (∀ (fills : List Fill) (m : ℚ),
      WhatIfSimulator.applyPositionSizeLimit fills m = positionReplayInInputOrder fills m) ∧
    (∀ (fills : List Fill) (m : ℚ),
      (WhatIfSimulator.applyPositionSizeLimit fills m).Sublist fills) ∧
    (∀ (env : Env) (sqrtA : ℚ → ℚ) (sid : String) (fills : List Fill)
        (cancels : List Cancel) (rejects : List Reject)
        (latencyMetrics : List LatencyMetric) (m : ℚ),
      (WhatIfSimulator.simulateScenario env sqrtA sid fills cancels rejects latencyMetrics
        { max_position_size := some m }).projected_metrics.total_cancels =
        (cancels.filter (fun c => decide (c.strategy_id = sid))).length) := by
  refine ⟨?_, ?_, ?_⟩
  · intro fills m
    rw [positionReplayInInputOrder, foldl_posStep, List.nil_append,
      WhatIfSimulator.applyPositionSizeLimit]
  · intro fills m
    exact posGo_sublist m 0 fills
  · intro env sqrtA sid fills cancels rejects latencyMetrics m
    simp only [WhatIfSimulator.simulateScenario, WhatIfSimulator.truthy, Bool.false_eq_true,
      if_false, MetricsCalculator.calculateStrategyMetrics, filter_filter_self]

/-- Buy fill of quantity 30 at timestamp 1, appearing second in the input. -/
def fillCexA : Fill :=
  { id := "fA", timestamp := 1, strategy_id := "S1", symbol := "AAPL",
    side := Side.buy, quantity := 30, price := 100, venue := "V",
    latency_ms := 5, order_id := "oA" }

/-- Buy fill of quantity 40 at timestamp 2, appearing first in the input. -/
def fillCexB : Fill :=
  { id := "fB", timestamp := 2, strategy_id := "S1", symbol := "AAPL",
    side := Side.buy, quantity := 40, price := 100, venue := "V",
    latency_ms := 5, order_id := "oB" }

/-- Counterexample to C5 as stated: with two buy fills of quantities 40 and
30 arriving in the input array in reverse timestamp order and a limit of 50,
the code keeps the first array element (quantity 40, the later timestamp)
while a timestamp-ordered replay would keep the other fill instead. -/
theorem applyPositionSizeLimit_not_timestamp_order :
    WhatIfSimulator.applyPositionSizeLimit [fillCexB, fillCexA] 50 = [fillCexB] ∧
    positionReplayByTimestamp [fillCexB, fillCexA] 50 = [fillCexA] ∧
    WhatIfSimulator.applyPositionSizeLimit [fillCexB, fillCexA] 50 ≠
      positionReplayByTimestamp [fillCexB, fillCexA] 50 := by
  have h1 : WhatIfSimulator.applyPositionSizeLimit [fillCexB, fillCexA] 50 = [fillCexB] := by
    norm_num [WhatIfSimulator.applyPositionSizeLimit, WhatIfSimulator.posGo,
      fillCexA, fillCexB]
  have h2 : positionReplayByTimestamp [fillCexB, fillCexA] 50 = [fillCexA] := by
    norm_num [positionReplayByTimestamp, List.insertionSort, List.orderedInsert,
      WhatIfSimulator.posGo, fillCexA, fillCexB]
  refine ⟨h1, h2, ?_⟩
  rw [h1, h2]
  simp [fillCexA, fillCexB]

/-! ## C9: division guards -/

/-- IEEE-754 result classification for a JavaScript division, restricted to
finite operands (the only case arising at the modelled site). -/
inductive JSNum where
  | num (q : ℚ)
  | nan
  | posInf
  | negInf
  deriving DecidableEq, Repr

/-- JavaScript division `a / b` of two finite numbers: `0/0` is `NaN`,
`x/0` for nonzero `x` is signed infinity, every other case is exact. -/
def jsDivNum (a b : ℚ) : JSNum :=
  if b = 0 then
    (if a = 0 then JSNum.nan else if a > 0 then JSNum.posInf else JSNum.negInf)
  else JSNum.num (a / b)

/-- The division `fills.length / totalOrders` computed at the head of
`WhatIfSimulator.applyMinFillRate` (`lib/whatif/simulator.ts` line 154),
with IEEE semantics for a zero denominator.  Both operands are array
lengths, hence finite. -/
def currentFillRateJS (fills : List Fill) (cancels : List Cancel)
    (rejects : List Reject) : JSNum :=
  jsDivNum (fills.length : ℚ) ((fills.length + cancels.length + rejects.length : ℕ) : ℚ)

/-- Counterexample to C9 as stated: the fill-rate division inside
`applyMinFillRate` has a potentially-zero denominator that is not guarded,
and on the empty event set — reachable via `simulateScenario` with
`min_fill_rate` set and no events — it evaluates to `NaN`, not to a rate of 0
nor to a division with the denominator replaced by 1. -/
theorem applyMinFillRate_division_nan :
    currentFillRateJS [] [] [] = JSNum.nan ∧
    currentFillRateJS [] [] [] ≠ JSNum.num 0 ∧
    currentFillRateJS [] [] [] ≠ JSNum.num ((([] : List Fill).length : ℚ) / 1) := by
  refine ⟨?_, ?_, ?_⟩ <;> simp [currentFillRateJS, jsDivNum]

/-- C9 (amended).  Every division in the metrics calculator with a
potentially-zero denominator is guarded — the rate fields substitute 0 when
`totalOrders = 0`, and the Sharpe-ratio and max-drawdown divisors
`Math.abs(x || 1)` are never zero — but the fill-rate division in
`applyMinFillRate` is unguarded and evaluates to `NaN` on the empty event
set; the `NaN` does not propagate to the stage's output, which returns the
(empty) input lists unchanged. -/
theorem division_guards :
    (∀ x : ℚ, jsAbsOr1 x ≠ 0) ∧
    (∀ sqrtA : ℚ → ℚ,
      (MetricsCalculator.calculatePerformanceMetrics sqrtA [] [] [] []).fillRate = 0 ∧
      (MetricsCalculator.calculatePerformanceMetrics sqrtA [] [] [] []).cancelRate = 0 ∧
      (MetricsCalculator.calculatePerformanceMetrics sqrtA [] [] [] []).rejectRate = 0) ∧
    (∀ (env : Env) (minFillRate : ℚ),
      WhatIfSimulator.applyMinFillRate env [] [] [] minFillRate = ([], [], [])) ∧
    currentFillRateJS [] [] [] = JSNum.nan := by
  refine ⟨?_, ?_, ?_, ?_⟩
  · intro x
    unfold jsAbsOr1 jsOr1
    by_cases h : x = 0
    · simp [h]
    · simp [h, abs_ne_zero.mpr h]
  · intro sqrtA
    simp [MetricsCalculator.calculatePerformanceMetrics]
  · intro env minFillRate
    unfold WhatIfSimulator.applyMinFillRate
    by_cases h : (((([] : List Fill).length : ℚ)) /
        ((((([] : List Fill).length + ([] : List Cancel).length +
          ([] : List Reject).length) : ℕ)) : ℚ) ≥ minFillRate)
    · simp_all
    · simp_all
  · simp [currentFillRateJS, jsDivNum]

/-! ## C8: time-series aggregation is order-insensitive -/

theorem mem_dedupFirstAux [DecidableEq α] (x : α) :
    ∀ (l acc : List α), x ∈ dedupFirstAux acc l ↔ x ∈ acc ∨ x ∈ l := by
  intro l
  induction l with
  | nil => intro acc; simp [dedupFirstAux]
  | cons a t ih =>
    intro acc
    simp only [dedupFirstAux]
    by_cases h : a ∈ acc
    · rw [if_pos h, ih]
      simp only [List.mem_cons]
      constructor
      · rintro (hx | hx)
        · exact Or.inl hx
        · exact Or.inr (Or.inr hx)
      · rintro (hx | hx | hx)
        · exact Or.inl hx
        · exact Or.inl (hx ▸ h)
        · exact Or.inr hx
    · rw [if_neg h, ih]
      simp only [List.mem_append, List.mem_singleton, List.mem_cons]
      tauto

theorem nodup_dedupFirstAux [DecidableEq α] :
    ∀ (l acc : List α), acc.Nodup → (dedupFirstAux acc l).Nodup := by
  intro l
  induction l with
  | nil => intro acc hacc; exact hacc
  | cons a t ih =>
    intro acc hacc
    simp only [dedupFirstAux]
    by_cases h : a ∈ acc
    · rw [if_pos h]; exact ih acc hacc
    · rw [if_neg h]
      refine ih (acc ++ [a]) ?_
      simp [List.nodup_append, hacc, h]

theorem mem_dedupFirst [DecidableEq α] {x : α} {l : List α} :
    x ∈ dedupFirst l ↔ x ∈ l := by
  simp [dedupFirst, mem_dedupFirstAux]

theorem nodup_dedupFirst [DecidableEq α] (l : List α) : (dedupFirst l).Nodup :=
  nodup_dedupFirstAux l [] List.nodup_nil

theorem dedupFirst_perm_of_perm [DecidableEq α] {l l' : List α} (h : l.Perm l') :
    (dedupFirst l).Perm (dedupFirst l') :=
  (List.perm_ext_iff_of_nodup (nodup_dedupFirst l) (nodup_dedupFirst l')).mpr
    (fun a => by rw [mem_dedupFirst, mem_dedupFirst, h.mem_iff])

theorem sortedWindowKeys_perm (w : ℕ) {ts ts' : List ℚ} (h : ts.Perm ts') :
    sortedWindowKeys w ts = sortedWindowKeys w ts' := by
  refine List.eq_of_perm_of_sorted ?_ (List.sorted_insertionSort _ _)
    (List.sorted_insertionSort _ _)
  exact (List.perm_insertionSort _ _).trans
    ((dedupFirst_perm_of_perm (h.map _)).trans (List.perm_insertionSort _ _).symm)

theorem sortedWindowKeys_sorted_lt (w : ℕ) (ts : List ℚ) :
    (sortedWindowKeys w ts).Sorted (· < ·) := by
  have hs : (sortedWindowKeys w ts).Sorted (· ≤ ·) := List.sorted_insertionSort _ _
  have hn : (sortedWindowKeys w ts).Nodup :=
    ((List.perm_insertionSort _ _).nodup_iff).mpr (nodup_dedupFirst _)
  exact hs.lt_of_le hn

theorem mem_sortedWindowKeys {w : ℕ} {k : ℤ} {ts : List ℚ} :
    k ∈ sortedWindowKeys w ts ↔ ∃ t ∈ ts, wkey w t = k := by
  simp [sortedWindowKeys, mem_dedupFirst]

theorem wstart_injective (w : ℕ) (hw : 0 < w) : Function.Injective (wstart w) := by
  intro a b hab
  unfold wstart at hab
  have hc : ((w : ℚ) * 60000) ≠ 0 := by
    have hwq : (0 : ℚ) < w := by exact_mod_cast hw
    positivity
  exact_mod_cast mul_right_cancel₀ hc hab

/-- C8.  Time-series aggregation is order-insensitive: for every permutation
of the inputs, `calculateVolumeTimeSeries` and `calculateFillRateTimeSeries`
with the same window width return the same output; the output timestamps are
strictly ascending (exactly one point per window), and a window's timestamp
appears in the output exactly when some input event falls into that window
(no zero-filled gaps). -/
theorem timeSeries_aggregation_order_insensitive (w : ℕ) (hw : 0 < w)
    (fills fills' : List Fill) (cancels cancels' : List Cancel)
    (rejects rejects' : List Reject)
    (hf : fills.Perm fills') (hc : cancels.Perm cancels') (hr : rejects.Perm rejects') :
    MetricsCalculator.calculateVolumeTimeSeries fills w =
      MetricsCalculator.calculateVolumeTimeSeries fills' w ∧
    MetricsCalculator.calculateFillRateTimeSeries fills cancels rejects w =
      MetricsCalculator.calculateFillRateTimeSeries fills' cancels' rejects' w ∧
    ((MetricsCalculator.calculateVolumeTimeSeries fills w).map (·.timestamp)).Sorted (· < ·) ∧
    ((MetricsCalculator.calculateFillRateTimeSeries fills cancels rejects w).map
      (·.timestamp)).Sorted (· < ·) ∧
    (∀ k : ℤ, wstart w k ∈ (MetricsCalculator.calculateVolumeTimeSeries fills w).map
        (·.timestamp) ↔ ∃ f ∈ fills, wkey w f.timestamp = k) ∧
    (∀ k : ℤ, wstart w k ∈ (MetricsCalculator.calculateFillRateTimeSeries fills cancels
        rejects w).map (·.timestamp) ↔
      ((∃ f ∈ fills, wkey w f.timestamp = k) ∨ (∃ c ∈ cancels, wkey w c.timestamp = k) ∨
        (∃ r ∈ rejects, wkey w r.timestamp = k))) := by
  have hwq : (0 : ℚ) < (w : ℚ) * 60000 := by
    have h0 : (0 : ℚ) < w := by exact_mod_cast hw
    positivity
  have hsortmap : ∀ (keys : List ℤ) (g : ℤ → TimeSeriesPoint),
      keys.Sorted (· < ·) → (∀ k, (g k).timestamp = wstart w k) →
      ((keys.map g).map (·.timestamp)).Sorted (· < ·) := by
    intro keys g hk hg
    rw [List.map_map]
    refine List.Pairwise.map _ (fun a b hab => ?_) hk
    have hcast : (a : ℚ) < b := by exact_mod_cast hab
    simp only [Function.comp_apply, hg]
    exact mul_lt_mul_of_pos_right hcast hwq
  have hmemmap : ∀ (keys : List ℤ) (g : ℤ → TimeSeriesPoint) (k : ℤ),
      (∀ k, (g k).timestamp = wstart w k) →
      (wstart w k ∈ (keys.map g).map (·.timestamp) ↔ k ∈ keys) := by
    intro keys g k hg
    rw [List.map_map]
    constructor
    · intro hmem
      obtain ⟨k1, hk1, he⟩ := List.mem_map.mp hmem
      simp only [Function.comp_apply, hg] at he
      exact (wstart_injective w hw he) ▸ hk1
    · intro hk
      exact List.mem_map.mpr ⟨k, hk, by simp [Function.comp_apply, hg]⟩
  refine ⟨?_, ?_, ?_, ?_, ?_, ?_⟩
  · unfold MetricsCalculator.calculateVolumeTimeSeries
    rw [sortedWindowKeys_perm w (hf.map _)]
    refine List.map_congr_left (fun k _ => ?_)
    have hv : ((fills.filter (fun f => decide (wkey w f.timestamp = k))).map (·.quantity)).sum =
        ((fills'.filter (fun f => decide (wkey w f.timestamp = k))).map (·.quantity)).sum :=
      ((hf.filter _).map _).sum_eq
    rw [hv]
  · have hevts : (fills.map (fun f => (f.timestamp, true)) ++
        cancels.map (fun c => (c.timestamp, false)) ++
        rejects.map (fun r => (r.timestamp, false))).Perm
        (fills'.map (fun f => (f.timestamp, true)) ++
        cancels'.map (fun c => (c.timestamp, false)) ++
        rejects'.map (fun r => (r.timestamp, false))) :=
      ((hf.map _).append (hc.map _)).append (hr.map _)
    simp only [MetricsCalculator.calculateFillRateTimeSeries]
    rw [sortedWindowKeys_perm w (hevts.map _)]
    refine List.map_congr_left (fun k _ => ?_)
    have h1 := (hevts.filter (fun e => decide (wkey w e.1 = k))).length_eq
    have h2 := ((hevts.filter (fun e => decide (wkey w e.1 = k))).filter (·.2)).length_eq
    simp only [h1, h2]
  · unfold MetricsCalculator.calculateVolumeTimeSeries
    exact hsortmap _ _ (sortedWindowKeys_sorted_lt w _) (fun _ => rfl)
  · simp only [MetricsCalculator.calculateFillRateTimeSeries]
    exact hsortmap _ _ (sortedWindowKeys_sorted_lt w _) (fun _ => rfl)
  · intro k
    unfold MetricsCalculator.calculateVolumeTimeSeries
    rw [hmemmap _ _ _ (fun _ => rfl), mem_sortedWindowKeys]
    constructor
    · rintro ⟨t, ht, hte⟩
      obtain ⟨f, hfm, rfl⟩ := List.mem_map.mp ht
      exact ⟨f, hfm, hte⟩
    · rintro ⟨f, hfm, hfe⟩
      exact ⟨f.timestamp, List.mem_map.mpr ⟨f, hfm, rfl⟩, hfe⟩
  · intro k
    simp only [MetricsCalculator.calculateFillRateTimeSeries]
    rw [hmemmap _ _ _ (fun _ => rfl), mem_sortedWindowKeys]
    constructor
    · rintro ⟨t, ht, hte⟩
      obtain ⟨e, hem, rfl⟩ := List.mem_map.mp ht
      rcases List.mem_append.mp hem with hem1 | hem1
      · rcases List.mem_append.mp hem1 with hem2 | hem2
        · obtain ⟨f, hfm, rfl⟩ := List.mem_map.mp hem2
          exact Or.inl ⟨f, hfm, hte⟩
        · obtain ⟨c, hcm, rfl⟩ := List.mem_map.mp hem2
          exact Or.inr (Or.inl ⟨c, hcm, hte⟩)
      · obtain ⟨r, hrm, rfl⟩ := List.mem_map.mp hem1
        exact Or.inr (Or.inr ⟨r, hrm, hte⟩)
    · rintro (⟨f, hm, he⟩ | ⟨c, hm, he⟩ | ⟨r, hm, he⟩)
      · exact ⟨f.timestamp, List.mem_map.mpr ⟨(f.timestamp, true), List.mem_append.mpr
          (Or.inl (List.mem_append.mpr (Or.inl (List.mem_map.mpr ⟨f, hm, rfl⟩)))), rfl⟩, he⟩
      · exact ⟨c.timestamp, List.mem_map.mpr ⟨(c.timestamp, false), List.mem_append.mpr
          (Or.inl (List.mem_append.mpr (Or.inr (List.mem_map.mpr ⟨c, hm, rfl⟩)))), rfl⟩, he⟩
      · exact ⟨r.timestamp, List.mem_map.mpr ⟨(r.timestamp, false), List.mem_append.mpr
          (Or.inr (List.mem_map.mpr ⟨r, hm, rfl⟩)), rfl⟩, he⟩

/-- Witness for C8 at a concrete two-fill permutation with 60-minute
windows. -/
theorem timeSeries_aggregation_order_insensitive_witness :
    MetricsCalculator.calculateVolumeTimeSeries [fillCexA, fillCexB] 60 =
      MetricsCalculator.calculateVolumeTimeSeries [fillCexB, fillCexA] 60 :=
  (timeSeries_aggregation_order_insensitive 60 (by decide) [fillCexA, fillCexB]
    [fillCexB, fillCexA] [] [] [] [] (List.Perm.swap fillCexB fillCexA [])
    (List.Perm.refl []) (List.Perm.refl [])).1

/-! ## C6: the latency-spike detector -/

theorem latSpikeLoop_eq (env : Env) (sqrtA : ℚ → ℚ) (thr : AnomalyThresholds)
    (sorted : List LatencyMetric) (w : ℕ) :
    ∀ n i, sorted.length - i = n →
      AnomalyDetector.latSpikeLoop env sqrtA thr sorted w i =
        ((List.range' i n).filter (AnomalyDetector.latencyFlag thr sorted w)).map
          (AnomalyDetector.latencyEmit env sqrtA sorted w) := by
  intro n
  induction n with
  | zero =>
    intro i hi
    rw [AnomalyDetector.latSpikeLoop, dif_neg (by omega)]
    simp
  | succ n ih =>
    intro i hi
    have hlt : i < sorted.length := by omega
    rw [AnomalyDetector.latSpikeLoop, dif_pos hlt, List.range'_succ,
      List.filter_cons, ih (i + 1) (by omega)]
    by_cases hfl : AnomalyDetector.latencyFlag thr sorted w i
    · simp [hfl]
    · simp [hfl]

/-- C6 (amended).  `detectLatencySpikes` returns no anomalies when fewer
than `windowSize` samples are given; otherwise, scanning the stably
timestamp-sorted samples from index `windowSize`, it emits an anomaly for a
sample if and only if `latencyFlag` holds there — that is, `z > 3` or the
latency exceeds the `latencySpike` threshold, where
`z = (current - mean) / (stdDev == 0 ? 1 : stdDev)` over the `windowSize`
preceding samples (the source's `stdDev || 1`, not the claimed
`max(stdDev, 1)`) — and the emitted record's severity buckets `z` against
`[2, 3, 4]` (encoded by the signed square `zSig` against `[4, 9, 16]`). -/
theorem detectLatencySpikes_characterization (env : Env) (sqrtA : ℚ → ℚ)
    (thr : AnomalyThresholds) (metrics : List LatencyMetric) (w : ℕ) :
    AnomalyDetector.detectLatencySpikes env sqrtA thr metrics w =
      if metrics.length < w then []
      else
        ((List.range' w ((List.insertionSort (fun a b => a.timestamp ≤ b.timestamp)
            metrics).length - w)).filter
          (AnomalyDetector.latencyFlag thr
            (List.insertionSort (fun a b => a.timestamp ≤ b.timestamp) metrics) w)).map
          (AnomalyDetector.latencyEmit env sqrtA
            (List.insertionSort (fun a b => a.timestamp ≤ b.timestamp) metrics) w) := by
  unfold AnomalyDetector.detectLatencySpikes
  by_cases h : metrics.length < w
  · simp [h]
  · rw [if_neg h, if_neg h, latSpikeLoop_eq env sqrtA thr _ w _ w rfl]

/-- Concrete latency sample used by the detector counterexamples. -/
def latSample (t lat : ℚ) : LatencyMetric :=
  { id := "", timestamp := t, strategy_id := "S1", metric_type := "order_to_fill",
    latency_ms := lat }

/-- Twenty-one samples in ascending timestamp order: nineteen at 10 ms, then
two at 11 ms.  At index 20 the window is the first twenty samples, with mean
201/20 and variance 19/400, so the code's z-score is
(19/20)/sqrt(19/400) = sqrt(19) > 3 while the claim's reading gives
(19/20)/max(sqrt(19/400), 1) = 19/20 ≤ 3. -/
def latCexSamples : List LatencyMetric :=
  [latSample 0 10, latSample 1 10, latSample 2 10, latSample 3 10, latSample 4 10,
   latSample 5 10, latSample 6 10, latSample 7 10, latSample 8 10, latSample 9 10,
   latSample 10 10, latSample 11 10, latSample 12 10, latSample 13 10, latSample 14 10,
   latSample 15 10, latSample 16 10, latSample 17 10, latSample 18 10, latSample 19 11,
   latSample 20 11]

/-- Environment sample used by the detector counterexamples. -/
def envCex1 : Env :=
  { nowMs := 1000, nowStr := "1000", randStr := "abc", today := "2026-10-11",
    rand := fun _ => 0 }

/-- A second environment, as produced by a later call (`Date.now()` and
`Math.random()` have advanced). -/
def envCex2 : Env :=
  { nowMs := 2000, nowStr := "2000", randStr := "xyz", today := "2026-10-11",
    rand := fun _ => 0 }

theorem latCexSamples_sorted :
    List.insertionSort (fun a b => a.timestamp ≤ b.timestamp) latCexSamples =
      latCexSamples := by
  refine List.Sorted.insertionSort_eq ?_
  simp only [latCexSamples, latSample, List.sorted_cons, List.mem_cons]
  norm_num

theorem latCex_flag_code :
    AnomalyDetector.latencyFlag DEFAULT_THRESHOLDS latCexSamples 20 20 = true := by
  unfold AnomalyDetector.latencyFlag AnomalyDetector.latWindow
  norm_num [latCexSamples, latSample, AnomalyDetector.dfltLatencyMetric, meanQ, varQ,
    zSig, jsOr1, DEFAULT_THRESHOLDS]
  rw [abs_of_pos (by norm_num : (0 : ℚ) < 19 / 20)]
  norm_num

theorem latCex_flag_spec :
    AnomalyDetector.latencyFlagSpec DEFAULT_THRESHOLDS latCexSamples 20 20 = false := by
  unfold AnomalyDetector.latencyFlagSpec AnomalyDetector.latWindow
  norm_num [latCexSamples, latSample, AnomalyDetector.dfltLatencyMetric, meanQ, varQ,
    zSigSpec, DEFAULT_THRESHOLDS]
  rw [abs_of_pos (by norm_num : (0 : ℚ) < 19 / 20)]
  norm_num

theorem latSpikeLoopSpec_eq (env : Env) (sqrtA : ℚ → ℚ) (thr : AnomalyThresholds)
    (sorted : List LatencyMetric) (w : ℕ) :
    ∀ n i, sorted.length - i = n →
      AnomalyDetector.latSpikeLoopSpec env sqrtA thr sorted w i =
        ((List.range' i n).filter (AnomalyDetector.latencyFlagSpec thr sorted w)).map
          (AnomalyDetector.latencyEmit env sqrtA sorted w) := by
  intro n
  induction n with
  | zero =>
    intro i hi
    rw [AnomalyDetector.latSpikeLoopSpec, dif_neg (by omega)]
    simp
  | succ n ih =>
    intro i hi
    have hlt : i < sorted.length := by omega
    rw [AnomalyDetector.latSpikeLoopSpec, dif_pos hlt, List.range'_succ,
      List.filter_cons, ih (i + 1) (by omega)]
    by_cases hfl : AnomalyDetector.latencyFlagSpec thr sorted w i
    · simp [hfl]
    · simp [hfl]

/-- Counterexample to C6 as stated: on `latCexSamples` the code emits one
latency-spike anomaly (its z-score divides by the actual standard deviation
sqrt(19/400) < 1, giving z = sqrt(19) > 3), while the claimed rule — divisor
`max(stdDev, 1)` — flags nothing, since there z = 19/20 ≤ 3 and the latency
11 does not exceed the 150 ms threshold. -/
theorem detectLatencySpikes_divisor_counterexample :
    (AnomalyDetector.detectLatencySpikes envCex1 (fun _ => 0) DEFAULT_THRESHOLDS
      latCexSamples 20).length = 1 ∧
    (AnomalyDetector.detectLatencySpikesSpec envCex1 (fun _ => 0) DEFAULT_THRESHOLDS
      latCexSamples 20).length = 0 := by
  constructor
  · unfold AnomalyDetector.detectLatencySpikes
    rw [if_neg (by simp [latCexSamples]), latCexSamples_sorted,
      latSpikeLoop_eq envCex1 (fun _ => 0) DEFAULT_THRESHOLDS latCexSamples 20 1 20
        (by simp [latCexSamples])]
    simp [List.range'_succ, latCex_flag_code]
  · unfold AnomalyDetector.detectLatencySpikesSpec
    rw [if_neg (by simp [latCexSamples]), latCexSamples_sorted,
      latSpikeLoopSpec_eq envCex1 (fun _ => 0) DEFAULT_THRESHOLDS latCexSamples 20 1 20
        (by simp [latCexSamples])]
    simp [List.range'_succ, latCex_flag_spec]

/-! ## C7: determinism of `detectAll` -/

theorem strip_detectLatencySpikes (e1 e2 : Env) (sqrtA : ℚ → ℚ)
    (thr : AnomalyThresholds) (metrics : List LatencyMetric) (w : ℕ) :
    (AnomalyDetector.detectLatencySpikes e1 sqrtA thr metrics w).map
      AnomalyDetector.stripAnomaly =
    (AnomalyDetector.detectLatencySpikes e2 sqrtA thr metrics w).map
      AnomalyDetector.stripAnomaly := by
  unfold AnomalyDetector.detectLatencySpikes
  by_cases h : metrics.length < w
  · simp [h]
  · rw [if_neg h, if_neg h,
      latSpikeLoop_eq e1 sqrtA thr _ w _ w rfl,
      latSpikeLoop_eq e2 sqrtA thr _ w _ w rfl,
      List.map_map, List.map_map]
    refine List.map_congr_left (fun i _ => ?_)
    simp [Function.comp_apply, AnomalyDetector.stripAnomaly, AnomalyDetector.latencyEmit]

theorem strip_detectHighRejectRate (e1 e2 : Env) (thr : AnomalyThresholds)
    (fills : List Fill) (cancels : List Cancel) (rejects : List Reject) (w : ℕ) :
    (AnomalyDetector.detectHighRejectRate e1 thr fills cancels rejects w).map
      AnomalyDetector.stripAnomaly =
    (AnomalyDetector.detectHighRejectRate e2 thr fills cancels rejects w).map
      AnomalyDetector.stripAnomaly := by
  unfold AnomalyDetector.detectHighRejectRate
  rw [List.map_map, List.map_map]
  refine List.map_congr_left (fun t _ => ?_)
  simp [Function.comp_apply, AnomalyDetector.stripAnomaly, AnomalyDetector.rejectEmit]

theorem strip_detectUnusualVolume (e1 e2 : Env) (thr : AnomalyThresholds)
    (fills : List Fill) (w : ℕ) :
    (AnomalyDetector.detectUnusualVolume e1 thr fills w).map
      AnomalyDetector.stripAnomaly =
    (AnomalyDetector.detectUnusualVolume e2 thr fills w).map
      AnomalyDetector.stripAnomaly := by
  unfold AnomalyDetector.detectUnusualVolume
  rw [List.map_map, List.map_map]
  refine List.map_congr_left (fun t _ => ?_)
  simp [Function.comp_apply, AnomalyDetector.stripAnomaly, AnomalyDetector.volumeEmit]

theorem strip_detectFillRateDrop (e1 e2 : Env) (thr : AnomalyThresholds)
    (fills : List Fill) (cancels : List Cancel) (rejects : List Reject) (w : ℕ) :
    (AnomalyDetector.detectFillRateDrop e1 thr fills cancels rejects w).map
      AnomalyDetector.stripAnomaly =
    (AnomalyDetector.detectFillRateDrop e2 thr fills cancels rejects w).map
      AnomalyDetector.stripAnomaly := by
  unfold AnomalyDetector.detectFillRateDrop
  rw [List.map_map, List.map_map]
  refine List.map_congr_left (fun t _ => ?_)
  simp [Function.comp_apply, AnomalyDetector.stripAnomaly, AnomalyDetector.fillRateEmit]

/-- C7 (amended).  Anomaly detection is deterministic up to the generated
`id` and `detected_at` fields: for any two environments (two call times /
random draws), `detectAll` on identical inputs yields anomaly lists that
agree on every other field, in the same descending-by-timestamp order. -/
theorem detectAll_deterministic_mod_ids (e1 e2 : Env) (sqrtA : ℚ → ℚ)
    (thr : AnomalyThresholds) (fills : List Fill) (cancels : List Cancel)
    (rejects : List Reject) (latencyMetrics : List LatencyMetric) :
    (AnomalyDetector.detectAll e1 sqrtA thr fills cancels rejects latencyMetrics).map
      AnomalyDetector.stripAnomaly =
    (AnomalyDetector.detectAll e2 sqrtA thr fills cancels rejects latencyMetrics).map
      AnomalyDetector.stripAnomaly := by
  unfold AnomalyDetector.detectAll
  rw [List.map_insertionSort (fun a b => b.timestamp ≤ a.timestamp)
      (fun a b => b.timestamp ≤ a.timestamp) AnomalyDetector.stripAnomaly _
      (fun a _ b _ => Iff.rfl),
    List.map_insertionSort (fun a b => b.timestamp ≤ a.timestamp)
      (fun a b => b.timestamp ≤ a.timestamp) AnomalyDetector.stripAnomaly _
      (fun a _ b _ => Iff.rfl)]
  congr 1
  simp only [List.map_append]
  rw [strip_detectLatencySpikes e1 e2, strip_detectHighRejectRate e1 e2,
    strip_detectUnusualVolume e1 e2, strip_detectFillRateDrop e1 e2]

/-- Concrete reject used by the `detectAll` counterexample. -/
def rejSampleCex (i : String) : Reject :=
  { id := i, timestamp := 0, strategy_id := "S1", symbol := "AAPL",
    order_id := i, reason := "risk", error_code := "E1" }

/-- Five rejects in one window: enough events for the reject-rate detector
to fire once. -/
def rejCexList : List Reject :=
  [rejSampleCex "r1", rejSampleCex "r2", rejSampleCex "r3", rejSampleCex "r4",
   rejSampleCex "r5"]

/-- Counterexample to C7 as stated: two calls of `detectAll` on identical
inputs, made at different times (environments `envCex1` and `envCex2`),
return different anomaly lists — the generated `id` embeds `Date.now()` and
a `Math.random()` tag. -/
theorem detectAll_env_counterexample :
    AnomalyDetector.detectAll envCex1 (fun _ => 0) DEFAULT_THRESHOLDS [] [] rejCexList [] ≠
    AnomalyDetector.detectAll envCex2 (fun _ => 0) DEFAULT_THRESHOLDS [] [] rejCexList [] := by
  have h1 : (AnomalyDetector.detectAll envCex1 (fun _ => 0) DEFAULT_THRESHOLDS [] []
      rejCexList []).map (·.id) = ["anomaly-reject-" ++ "1000" ++ "-" ++ "abc"] := by
    unfold AnomalyDetector.detectAll AnomalyDetector.detectLatencySpikes
      AnomalyDetector.detectHighRejectRate AnomalyDetector.detectUnusualVolume
      AnomalyDetector.detectFillRateDrop AnomalyDetector.rejectCore AnomalyDetector.rejSeq
    norm_num [rejCexList, rejSampleCex, dedupFirst, dedupFirstAux, wkey, envCex1,
      AnomalyDetector.rejectEmit, List.insertionSort, List.orderedInsert,
      List.filterMap_cons, DEFAULT_THRESHOLDS]
  have h2 : (AnomalyDetector.detectAll envCex2 (fun _ => 0) DEFAULT_THRESHOLDS [] []
      rejCexList []).map (·.id) = ["anomaly-reject-" ++ "2000" ++ "-" ++ "xyz"] := by
    unfold AnomalyDetector.detectAll AnomalyDetector.detectLatencySpikes
      AnomalyDetector.detectHighRejectRate AnomalyDetector.detectUnusualVolume
      AnomalyDetector.detectFillRateDrop AnomalyDetector.rejectCore AnomalyDetector.rejSeq
    norm_num [rejCexList, rejSampleCex, dedupFirst, dedupFirstAux, wkey, envCex2,
      AnomalyDetector.rejectEmit, List.insertionSort, List.orderedInsert,
      List.filterMap_cons, DEFAULT_THRESHOLDS]
  intro heq
  rw [heq] at h1
  have hids := h1.symm.trans h2
  exact absurd hids (by decide)

end Telemetry
